import Mathlib

/-!
Verification of the subscriber service of the rss_fidder backend.

The subscriber service (`backend/services/subscriber.py`) is embedded as
pure functions.  The database access objects (`DBSubscriber`,
`RssProviderDatabase`) are external to the given sources, so:
  * read operations (`get_by_id`, `get_by_email`) are modelled from the
    spec as lookups over the list of stored subscribers;
  * the result of each write operation (`create`, `update`, `delete`) is
    passed to the service function as an explicit parameter, since the
    service only branches on (or forwards) that result.
-/

/-- A subscriber record, from `models.subscriber.Subscriber` as used by
the service: opaque id, email, stored password, verification flag and the
ordered list of followed provider ids. -/
structure Subscriber where
  id : String
  email : String
  password : String
  is_verified : Bool
  subscribed_providers : List String
deriving Repr, DecidableEq

/-- An RSS provider; the subscriber service only consults its id. -/
structure RssProvider where
  id : String
deriving Repr, DecidableEq

/-- The three exception kinds raised by the service layer
(`core.exceptions`), each carrying its message string. -/
inductive ServiceError where
  | NotFoundException (msg : String)
  | ExistingDataException (msg : String)
  | DatabaseException (msg : String)
deriving Repr, DecidableEq

/-- Modelled from the spec: `database.subscriber.DBSubscriber.get_by_email`
is not among the given sources; the spec describes the database access
object as a thin query wrapper exposing get by email over the stored
subscribers. -/
def DBSubscriber.get_by_email (db : List Subscriber) (email : String) :
    Option Subscriber :=
  db.find? (fun s => s.email == email)

/-- Modelled from the spec: `database.subscriber.DBSubscriber.get_by_id`,
a thin query wrapper exposing get by id over the stored subscribers. -/
def DBSubscriber.get_by_id (db : List Subscriber) (id : String) :
    Option Subscriber :=
  db.find? (fun s => s.id == id)

/-- Modelled from the spec: `database.rss_provider.RssProviderDatabase
.get_by_id`, a thin query wrapper exposing get by id over the stored
providers. -/
def RssProviderDatabase.get_by_id (providers : List RssProvider)
    (provider_id : String) : Option RssProvider :=
  providers.find? (fun p => p.id == provider_id)

/-- Modelled from the spec: the effect of `subscriber_db.update(id, sub)`
on the store, replacing the entry with that id by `sub`. -/
def DBSubscriber.update_store (db : List Subscriber) (id : String)
    (sub : Subscriber) : List Subscriber :=
  db.map (fun s => if s.id == id then sub else s)

/-- Modelled from the spec: the underlying password-hashing library
(a bcrypt-class `CryptContext`) is an external black box; the spec says
its `hash` is a one-way hash producing an opaque hash, never the
plaintext.  Modelled as a tagged string distinct from its input. -/
def CryptContext.hash (password : String) : String :=
  "$2b$12$" ++ password

/-- `PasswordCodec.hash` from `services/utils/codec.py`: delegates to the
crypt context. -/
def PasswordCodec.hash (password : String) : String :=
  CryptContext.hash password

/-- `SubscriberService.get_by_email`: returns the subscriber found by
email, or raises `NotFoundException`. -/
def SubscriberService.get_by_email (db : List Subscriber) (email : String) :
    Except ServiceError Subscriber :=
  match DBSubscriber.get_by_email db email with
  | some subscriber => .ok subscriber
  | none => .error (.NotFoundException
      ("Subscriber with email " ++ email ++ " not found"))

/-- `SubscriberService.get_by_id`: returns the subscriber found by id, or
raises `NotFoundException`. -/
def SubscriberService.get_by_id (db : List Subscriber) (id : String) :
    Except ServiceError Subscriber :=
  match DBSubscriber.get_by_id db id with
  | some subscriber => .ok subscriber
  | none => .error (.NotFoundException
      ("Subscriber with id " ++ id ++ " not found"))

/-- `SubscriberService.create`: rejects an existing email (with a message
depending on the existing entry's verification flag), otherwise hashes
the password and persists.  `persist` stands for the awaited
`subscriber_db.create` call on the (hashed) subscriber. -/
def SubscriberService.create (db : List Subscriber)
    (persist : Subscriber → Option Subscriber) (subscriber : Subscriber) :
    Except ServiceError Subscriber :=
  match DBSubscriber.get_by_email db subscriber.email with
  | some email_search =>
    if email_search.is_verified then
      .error (.ExistingDataException
        ("Subscriber with email " ++ subscriber.email ++ " already exists"))
    else
      .error (.ExistingDataException
        ("Subscriber with email " ++ subscriber.email ++
          " has not verified email"))
  | none =>
    let hashed :=
      { subscriber with password := PasswordCodec.hash subscriber.password }
    match persist hashed with
    | some created => .ok created
    | none => .error (.DatabaseException "Failed to create subscriber")

/-- `SubscriberService.update`: requires the target id to exist; allows
the update when the payload's email is unused or the subscriber found by
that email has the payload's id (the code compares `email_search.id`
against `subscriber.id`, the payload's id).  `persist` stands for the
awaited `subscriber_db.update(id, subscriber)` call. -/
def SubscriberService.update (db : List Subscriber)
    (persist : String → Subscriber → Option Subscriber)
    (id : String) (subscriber : Subscriber) : Except ServiceError Subscriber :=
  match DBSubscriber.get_by_id db id with
  | none => .error (.NotFoundException
      ("Subscriber with id " ++ subscriber.id ++ " not found"))
  | some _db_subscriber =>
    match DBSubscriber.get_by_email db subscriber.email with
    | some email_search =>
      if email_search.id == subscriber.id then
        match persist id subscriber with
        | some updated => .ok updated
        | none => .error (.DatabaseException "Failed to update subscriber")
      else
        .error (.ExistingDataException
          ("Subscriber with email " ++ subscriber.email ++ " already exists"))
    | none =>
      match persist id subscriber with
      | some updated => .ok updated
      | none => .error (.DatabaseException "Failed to update subscriber")

/-- `SubscriberService.delete`: requires the id to exist; returns `true`
when the awaited `subscriber_db.delete(id)` result (`delete_result`) is
truthy, otherwise raises `DatabaseException`. -/
def SubscriberService.delete (db : List Subscriber) (delete_result : Bool)
    (id : String) : Except ServiceError Bool :=
  match DBSubscriber.get_by_id db id with
  | none => .error (.NotFoundException
      ("Subscriber with id " ++ id ++ " not found"))
  | some _db_subscriber =>
    if delete_result then .ok true
    else .error (.DatabaseException "Failed to delete subscriber")

/-- `SubscriberService.provider_follow`: requires subscriber and provider
to exist and the provider not already followed; then appends the provider
id and returns the raw result of the awaited `subscriber_db.update` call
(`update` below), without inspecting it. -/
def SubscriberService.provider_follow {α : Type} (db : List Subscriber)
    (providers : List RssProvider) (update : String → Subscriber → α)
    (id : String) (provider_id : String) : Except ServiceError α :=
  match DBSubscriber.get_by_id db id with
  | none => .error (.NotFoundException
      ("Subscriber with id " ++ id ++ " not found"))
  | some db_subscriber =>
    match RssProviderDatabase.get_by_id providers provider_id with
    | none => .error (.NotFoundException
        ("Provider with id " ++ provider_id ++ " not found"))
    | some _provider =>
      let subscriber_providers := db_subscriber.subscribed_providers
      if provider_id ∈ subscriber_providers then
        .error (.ExistingDataException
          ("Subscriber with id " ++ id ++
            " already follows provider with id " ++ provider_id))
      else
        .ok (update id { db_subscriber with
          subscribed_providers := subscriber_providers ++ [provider_id] })

/-- `SubscriberService.provider_unfollow`: requires subscriber and
provider to exist and the provider to be currently followed; then removes
the first occurrence of the provider id and returns the raw result of the
awaited `subscriber_db.update` call, without inspecting it. -/
def SubscriberService.provider_unfollow {α : Type} (db : List Subscriber)
    (providers : List RssProvider) (update : String → Subscriber → α)
    (id : String) (provider_id : String) : Except ServiceError α :=
  match DBSubscriber.get_by_id db id with
  | none => .error (.NotFoundException
      ("Subscriber with id " ++ id ++ " not found"))
  | some db_subscriber =>
    match RssProviderDatabase.get_by_id providers provider_id with
    | none => .error (.NotFoundException
        ("Provider with id " ++ provider_id ++ " not found"))
    | some _provider =>
      let subscriber_providers := db_subscriber.subscribed_providers
      if provider_id ∉ subscriber_providers then
        .error (.NotFoundException
          ("Subscriber with id " ++ id ++
            " does not follow provider with id " ++ provider_id))
      else
        .ok (update id { db_subscriber with
          subscribed_providers := subscriber_providers.erase provider_id })

/-- External conditions the `ping` docstring claims to verify; the
handler receives and consults none of them. -/
structure World where
  database_reachable : Bool
  third_party_reachable : Bool
deriving Repr, DecidableEq

/-- The `ping` handler from `main.py`: returns the constant body.  The
`World` argument makes independence from external state statable; the
body uses nothing from it. -/
def ping (_w : World) : List (String × String) :=
  [("ping", "pong")]

/-! ### Helper lemmas -/

theorem Subscriber.eta_subscribed (s : Subscriber) :
    { s with subscribed_providers := s.subscribed_providers } = s := rfl

theorem DBSubscriber.get_by_email_eq_none (db : List Subscriber) (email : String) :
    DBSubscriber.get_by_email db email = none ↔ ∀ s ∈ db, s.email ≠ email := by
  simp [DBSubscriber.get_by_email, List.find?_eq_none]

theorem DBSubscriber.get_by_email_eq_some (db : List Subscriber) (email : String)
    (s : Subscriber) (h : DBSubscriber.get_by_email db email = some s) :
    s ∈ db ∧ s.email = email := by
  refine ⟨List.mem_of_find?_eq_some h, ?_⟩
  have := List.find?_some h
  simpa using this

theorem DBSubscriber.get_by_id_eq_none (db : List Subscriber) (id : String) :
    DBSubscriber.get_by_id db id = none ↔ ∀ s ∈ db, s.id ≠ id := by
  simp [DBSubscriber.get_by_id, List.find?_eq_none]

theorem DBSubscriber.get_by_id_eq_some (db : List Subscriber) (id : String)
    (s : Subscriber) (h : DBSubscriber.get_by_id db id = some s) :
    s ∈ db ∧ s.id = id := by
  refine ⟨List.mem_of_find?_eq_some h, ?_⟩
  have := List.find?_some h
  simpa using this

theorem DBSubscriber.update_store_cons (a : Subscriber) (l : List Subscriber)
    (id : String) (u : Subscriber) :
    DBSubscriber.update_store (a :: l) id u =
      (if a.id == id then u else a) :: DBSubscriber.update_store l id u := rfl

theorem DBSubscriber.get_by_id_cons (a : Subscriber) (l : List Subscriber)
    (id : String) :
    DBSubscriber.get_by_id (a :: l) id =
      if a.id == id then some a else DBSubscriber.get_by_id l id := by
  cases hb : a.id == id <;>
    simp [DBSubscriber.get_by_id, List.find?_cons_of_pos, List.find?_cons_of_neg, hb]

theorem DBSubscriber.get_by_id_update_store (db : List Subscriber) (id : String)
    (s u : Subscriber) (hfind : DBSubscriber.get_by_id db id = some s)
    (hu : u.id = id) :
    DBSubscriber.get_by_id (DBSubscriber.update_store db id u) id = some u := by
  induction db with
  | nil => simp [DBSubscriber.get_by_id] at hfind
  | cons a l ih =>
    rw [DBSubscriber.update_store_cons]
    by_cases hb : (a.id == id) = true
    · rw [if_pos hb, DBSubscriber.get_by_id_cons, if_pos (beq_iff_eq.mpr hu)]
    · rw [if_neg hb, DBSubscriber.get_by_id_cons,
        if_neg (by simpa using hb)]
      rw [DBSubscriber.get_by_id_cons, if_neg (by simpa using hb)] at hfind
      exact ih hfind

theorem List.erase_append_singleton_of_not_mem (l : List String) (a : String)
    (h : a ∉ l) : (l ++ [a]).erase a = l := by
  induction l with
  | nil => simp
  | cons b t ih =>
    have hb : b ≠ a := fun hba => h (hba ▸ List.mem_cons_self b t)
    have ht : a ∉ t := fun hat => h (List.mem_cons_of_mem b hat)
    simp [List.erase_cons, hb, ih ht]

/-! ### Claim theorems -/

/-- Claim C9: GET /api/v1/ping always returns the body with the single
pair ping/pong, regardless of database or third-party service state: the
handler consults neither before returning. -/
theorem ping_constant (w w' : World) :
    ping w = [("ping", "pong")] ∧ ping w = ping w' :=
  ⟨rfl, rfl⟩

/-- Claim C7: `get_by_email` and `get_by_id` fail with NotFoundException
exactly when no stored subscriber has that key, and otherwise return a
stored subscriber bearing that key. -/
theorem get_by_key_spec (db : List Subscriber) (email id : String) :
    ((∃ msg, SubscriberService.get_by_email db email =
        .error (.NotFoundException msg)) ↔ ¬ ∃ s ∈ db, s.email = email) ∧
    (∀ s, SubscriberService.get_by_email db email = .ok s →
      s ∈ db ∧ s.email = email) ∧
    ((∃ msg, SubscriberService.get_by_id db id =
        .error (.NotFoundException msg)) ↔ ¬ ∃ s ∈ db, s.id = id) ∧
    (∀ s, SubscriberService.get_by_id db id = .ok s →
      s ∈ db ∧ s.id = id) := by
  refine ⟨?_, ?_, ?_, ?_⟩
  · rcases h : DBSubscriber.get_by_email db email with _ | s
    · have h' := (DBSubscriber.get_by_email_eq_none db email).mp h
      simp only [SubscriberService.get_by_email, h]
      constructor
      · rintro - ⟨s, hs, he⟩
        exact h' s hs he
      · intro _
        exact ⟨_, rfl⟩
    · obtain ⟨hmem, he⟩ := DBSubscriber.get_by_email_eq_some db email s h
      simp only [SubscriberService.get_by_email, h]
      constructor
      · rintro ⟨msg, hmsg⟩
        exact absurd hmsg (by simp)
      · intro hcon
        exact absurd ⟨s, hmem, he⟩ hcon
  · intro s hs
    rcases h : DBSubscriber.get_by_email db email with _ | t
    · simp [SubscriberService.get_by_email, h] at hs
    · simp only [SubscriberService.get_by_email, h, Except.ok.injEq] at hs
      exact hs ▸ DBSubscriber.get_by_email_eq_some db email t h
  · rcases h : DBSubscriber.get_by_id db id with _ | s
    · have h' := (DBSubscriber.get_by_id_eq_none db id).mp h
      simp only [SubscriberService.get_by_id, h]
      constructor
      · rintro - ⟨s, hs, he⟩
        exact h' s hs he
      · intro _
        exact ⟨_, rfl⟩
    · obtain ⟨hmem, he⟩ := DBSubscriber.get_by_id_eq_some db id s h
      simp only [SubscriberService.get_by_id, h]
      constructor
      · rintro ⟨msg, hmsg⟩
        exact absurd hmsg (by simp)
      · intro hcon
        exact absurd ⟨s, hmem, he⟩ hcon
  · intro s hs
    rcases h : DBSubscriber.get_by_id db id with _ | t
    · simp [SubscriberService.get_by_id, h] at hs
    · simp only [SubscriberService.get_by_id, h, Except.ok.injEq] at hs
      exact hs ▸ DBSubscriber.get_by_id_eq_some db id t h

/-- Witness for C7 at a concrete store and keys. -/
theorem get_by_key_spec_witness :
    (⟨"a", "e", "p", false, []⟩ : Subscriber) ∈
        [(⟨"a", "e", "p", false, []⟩ : Subscriber)] ∧
      (⟨"a", "e", "p", false, []⟩ : Subscriber).email = "e" :=
  (get_by_key_spec [⟨"a", "e", "p", false, []⟩] "e" "a").2.1
    ⟨"a", "e", "p", false, []⟩ rfl

/-- Claim C8: `delete` fails with NotFoundException exactly when the id is
absent; when the id is present it fails with DatabaseException exactly
when the deletion result does not confirm; and whenever it returns
normally the returned boolean is `true`. -/
theorem delete_spec (db : List Subscriber) (delete_result : Bool) (id : String) :
    ((∃ msg, SubscriberService.delete db delete_result id =
        .error (.NotFoundException msg)) ↔ ¬ ∃ s ∈ db, s.id = id) ∧
    ((∃ s ∈ db, s.id = id) →
      (SubscriberService.delete db delete_result id =
          .error (.DatabaseException "Failed to delete subscriber") ↔
        delete_result = false)) ∧
    (∀ b, SubscriberService.delete db delete_result id = .ok b →
      b = true) := by
  refine ⟨?_, ?_, ?_⟩
  · rcases h : DBSubscriber.get_by_id db id with _ | s
    · have h' := (DBSubscriber.get_by_id_eq_none db id).mp h
      simp only [SubscriberService.delete, h]
      constructor
      · rintro - ⟨s, hs, he⟩
        exact h' s hs he
      · intro _
        exact ⟨_, rfl⟩
    · obtain ⟨hmem, he⟩ := DBSubscriber.get_by_id_eq_some db id s h
      simp only [SubscriberService.delete, h]
      constructor
      · rintro ⟨msg, hmsg⟩
        cases delete_result <;> simp_all
      · intro hcon
        exact absurd ⟨s, hmem, he⟩ hcon
  · rintro ⟨s, hs, he⟩
    rcases h : DBSubscriber.get_by_id db id with _ | t
    · exact absurd he ((DBSubscriber.get_by_id_eq_none db id).mp h s hs)
    · cases delete_result <;> simp [SubscriberService.delete, h]
  · intro b hb
    rcases h : DBSubscriber.get_by_id db id with _ | t <;>
      cases delete_result <;> simp_all [SubscriberService.delete, h]

/-- Witness for C8 at a concrete store, id and failing deletion result. -/
theorem delete_spec_witness :
    SubscriberService.delete [⟨"a", "e", "p", false, []⟩] false "a" =
        .error (.DatabaseException "Failed to delete subscriber") ↔
      false = false :=
  (delete_spec [⟨"a", "e", "p", false, []⟩] false "a").2.1
    ⟨⟨"a", "e", "p", false, []⟩, by simp, rfl⟩

/-- Claim C1: `create` fails with ExistingDataException exactly when some
stored entry has the subscriber's email, with one message when the found
entry is verified and a different message when it is not (same error
kind in both cases); with a fresh email it replaces the password by the
codec hash (so the stored password is not the plaintext input), persists
that subscriber, returns the persisted result, and fails with
DatabaseException exactly when persistence returns no result. -/
theorem create_spec (db : List Subscriber)
    (persist : Subscriber → Option Subscriber) (subscriber : Subscriber) :
    ((∃ msg, SubscriberService.create db persist subscriber =
        .error (.ExistingDataException msg)) ↔
      ∃ s ∈ db, s.email = subscriber.email) ∧
    (∀ found, DBSubscriber.get_by_email db subscriber.email = some found →
      SubscriberService.create db persist subscriber =
        .error (.ExistingDataException
          (if found.is_verified then
            "Subscriber with email " ++ subscriber.email ++ " already exists"
          else
            "Subscriber with email " ++ subscriber.email ++
              " has not verified email")) ∧
      ("Subscriber with email " ++ subscriber.email ++ " already exists") ≠
        ("Subscriber with email " ++ subscriber.email ++
          " has not verified email")) ∧
    ((∀ s ∈ db, s.email ≠ subscriber.email) →
      (∀ c, SubscriberService.create db persist subscriber = .ok c ↔
        persist { subscriber with
          password := PasswordCodec.hash subscriber.password } = some c) ∧
      (SubscriberService.create db persist subscriber =
          .error (.DatabaseException "Failed to create subscriber") ↔
        persist { subscriber with
          password := PasswordCodec.hash subscriber.password } = none)) ∧
    (∀ p : String, PasswordCodec.hash p ≠ p) := by
  refine ⟨?_, ?_, ?_, ?_⟩
  · rcases h : DBSubscriber.get_by_email db subscriber.email with _ | found
    · have h' := (DBSubscriber.get_by_email_eq_none db subscriber.email).mp h
      constructor
      · rintro ⟨msg, hmsg⟩
        rcases hp : persist { subscriber with
            password := PasswordCodec.hash subscriber.password } with _ | c <;>
          simp [SubscriberService.create, h, hp] at hmsg
      · rintro ⟨s, hs, he⟩
        exact absurd he (h' s hs)
    · obtain ⟨hmem, he⟩ :=
        DBSubscriber.get_by_email_eq_some db subscriber.email found h
      constructor
      · intro _
        exact ⟨found, hmem, he⟩
      · intro _
        by_cases hv : found.is_verified
        · exact ⟨"Subscriber with email " ++ subscriber.email ++
            " already exists", by simp [SubscriberService.create, h, hv]⟩
        · exact ⟨"Subscriber with email " ++ subscriber.email ++
            " has not verified email", by simp [SubscriberService.create, h, hv]⟩
  · intro found hfound
    constructor
    · by_cases hv : found.is_verified <;>
        simp [SubscriberService.create, hfound, hv]
    · intro hcon
      have hd := congrArg String.data hcon
      simp only [String.data_append, List.append_assoc] at hd
      have h2 := List.append_cancel_left (List.append_cancel_left hd)
      exact absurd h2 (by decide)
  · intro hfresh
    have h : DBSubscriber.get_by_email db subscriber.email = none :=
      (DBSubscriber.get_by_email_eq_none db subscriber.email).mpr hfresh
    constructor
    · intro c
      rcases hp : persist { subscriber with
          password := PasswordCodec.hash subscriber.password } with _ | d <;>
        simp [SubscriberService.create, h, hp]
    · rcases hp : persist { subscriber with
          password := PasswordCodec.hash subscriber.password } with _ | d <;>
        simp [SubscriberService.create, h, hp]
  · intro p hcon
    have hd := congrArg String.data hcon
    simp only [PasswordCodec.hash, CryptContext.hash, String.data_append] at hd
    have h2 := congrArg List.length hd
    simp at h2
    omega

/-- Witness for C1 at a concrete empty store, echoing persistence and a
concrete subscriber. -/
theorem create_spec_witness :
    (SubscriberService.create []
        (fun s => some s) ⟨"a", "e", "pw", false, []⟩ =
          .ok ⟨"a", "e", "$2b$12$" ++ "pw", false, []⟩ ↔
      some (⟨"a", "e", "$2b$12$" ++ "pw", false, []⟩ : Subscriber) =
        some (⟨"a", "e", "$2b$12$" ++ "pw", false, []⟩ : Subscriber)) :=
  ((create_spec [] (fun s => some s) ⟨"a", "e", "pw", false, []⟩).2.2.1
    (by simp)).1 ⟨"a", "e", "$2b$12$" ++ "pw", false, []⟩

/-- Counterexample to Claim C2 as stated: with one stored subscriber of
id a and email e, updating path id a with a payload of id b and email e
fails with ExistingDataException even though e is the target
subscriber's own unchanged email, because the code compares the email
owner's id against the payload's id, not the path id. -/
theorem update_claim_counterexample :
    DBSubscriber.get_by_id [⟨"a", "e", "pw", true, []⟩] "a" =
        some ⟨"a", "e", "pw", true, []⟩ ∧
      (⟨"a", "e", "pw", true, []⟩ : Subscriber).email =
        (⟨"b", "e", "pw2", true, []⟩ : Subscriber).email ∧
      SubscriberService.update [⟨"a", "e", "pw", true, []⟩]
          (fun _ s => some s) "a" ⟨"b", "e", "pw2", true, []⟩ =
        .error (.ExistingDataException
          ("Subscriber with email " ++ "e" ++ " already exists")) :=
  ⟨rfl, rfl, rfl⟩

/-- Claim C2 (amended): `update` fails with NotFoundException exactly
when the path id is absent; when the path id is present it fails with
ExistingDataException exactly when the subscriber found by the payload's
email has an id different from the payload's own id; and when the email
is unused or the found subscriber's id equals the payload's id it
persists the payload, returning the persistence result and failing with
DatabaseException exactly when persistence returns no result. -/
theorem update_amended_spec (db : List Subscriber)
    (persist : String → Subscriber → Option Subscriber)
    (id : String) (subscriber : Subscriber) :
    ((∃ msg, SubscriberService.update db persist id subscriber =
        .error (.NotFoundException msg)) ↔ ¬ ∃ s ∈ db, s.id = id) ∧
    ((∃ s ∈ db, s.id = id) →
      ((∃ msg, SubscriberService.update db persist id subscriber =
          .error (.ExistingDataException msg)) ↔
        ∃ found, DBSubscriber.get_by_email db subscriber.email = some found ∧
          found.id ≠ subscriber.id) ∧
      ((∀ found,
          DBSubscriber.get_by_email db subscriber.email = some found →
          found.id = subscriber.id) →
        (∀ c, SubscriberService.update db persist id subscriber = .ok c ↔
          persist id subscriber = some c) ∧
        (SubscriberService.update db persist id subscriber =
            .error (.DatabaseException "Failed to update subscriber") ↔
          persist id subscriber = none))) := by
  rcases h : DBSubscriber.get_by_id db id with _ | t
  · have h' := (DBSubscriber.get_by_id_eq_none db id).mp h
    refine ⟨⟨?_, ?_⟩, ?_⟩
    · rintro - ⟨s, hs, hsid⟩
      exact h' s hs hsid
    · intro _
      exact ⟨"Subscriber with id " ++ subscriber.id ++ " not found",
        by simp [SubscriberService.update, h]⟩
    · rintro ⟨s, hs, hsid⟩
      exact absurd hsid (h' s hs)
  · obtain ⟨hmem, hid⟩ := DBSubscriber.get_by_id_eq_some db id t h
    refine ⟨⟨?_, ?_⟩, ?_⟩
    · rintro ⟨msg, hmsg⟩
      exfalso
      rcases he : DBSubscriber.get_by_email db subscriber.email with _ | found
      · rcases hp : persist id subscriber with _ | c <;>
          simp [SubscriberService.update, h, he, hp] at hmsg
      · by_cases hfid : (found.id == subscriber.id) = true
        · rcases hp : persist id subscriber with _ | c <;>
            simp [SubscriberService.update, h, he, hfid, hp] at hmsg
        · simp [SubscriberService.update, h, he, hfid] at hmsg
    · intro hcon
      exact absurd ⟨t, hmem, hid⟩ hcon
    · intro _
      refine ⟨⟨?_, ?_⟩, ?_⟩
      · rintro ⟨msg, hmsg⟩
        rcases he : DBSubscriber.get_by_email db subscriber.email with _ | found
        · exfalso
          rcases hp : persist id subscriber with _ | c <;>
            simp [SubscriberService.update, h, he, hp] at hmsg
        · by_cases hfid : (found.id == subscriber.id) = true
          · exfalso
            rcases hp : persist id subscriber with _ | c <;>
              simp [SubscriberService.update, h, he, hfid, hp] at hmsg
          · exact ⟨found, rfl, by simpa using hfid⟩
      · rintro ⟨found, hfound, hne⟩
        have hfid : (found.id == subscriber.id) = false :=
          beq_eq_false_iff_ne.mpr hne
        exact ⟨"Subscriber with email " ++ subscriber.email ++
          " already exists", by simp [SubscriberService.update, h, hfound, hfid]⟩
      · intro hall
        constructor
        · intro c
          rcases he : DBSubscriber.get_by_email db subscriber.email with _ | found
          · rcases hp : persist id subscriber with _ | d <;>
              simp [SubscriberService.update, h, he, hp]
          · have hfid : (found.id == subscriber.id) = true :=
              beq_iff_eq.mpr (hall found he)
            rcases hp : persist id subscriber with _ | d <;>
              simp [SubscriberService.update, h, he, hfid, hp]
        · rcases he : DBSubscriber.get_by_email db subscriber.email with _ | found
          · rcases hp : persist id subscriber with _ | d <;>
              simp [SubscriberService.update, h, he, hp]
          · have hfid : (found.id == subscriber.id) = true :=
              beq_iff_eq.mpr (hall found he)
            rcases hp : persist id subscriber with _ | d <;>
              simp [SubscriberService.update, h, he, hfid, hp]

/-- Witness for the amended C2 at a concrete store, path id, fresh email
and echoing persistence. -/
theorem update_amended_spec_witness :
    SubscriberService.update [⟨"a", "e", "pw", true, []⟩]
        (fun _ s => some s) "a" ⟨"a", "e2", "pw", true, []⟩ =
          .ok ⟨"a", "e2", "pw", true, []⟩ ↔
      some (⟨"a", "e2", "pw", true, []⟩ : Subscriber) =
        some (⟨"a", "e2", "pw", true, []⟩ : Subscriber) :=
  (((update_amended_spec [⟨"a", "e", "pw", true, []⟩] (fun _ s => some s)
      "a" ⟨"a", "e2", "pw", true, []⟩).2
    ⟨⟨"a", "e", "pw", true, []⟩, by simp, rfl⟩).2
    (fun found hf => absurd hf (by
      rw [show DBSubscriber.get_by_email
        [(⟨"a", "e", "pw", true, []⟩ : Subscriber)] "e2" = none from rfl]
      simp))).1
    ⟨"a", "e2", "pw", true, []⟩

/-- Claim C3: `provider_follow` fails with NotFoundException when the
subscriber or the provider is absent; fails with ExistingDataException
when the provider id is already followed — in particular a second
identical follow after a successful persisted one fails with
ExistingDataException; otherwise it appends the provider id to the end
of `subscribed_providers` and persists the updated subscriber, returning
the raw persistence result. -/
theorem provider_follow_spec {α : Type} (db : List Subscriber)
    (providers : List RssProvider) (upd : String → Subscriber → α)
    (id provider_id : String) :
    ((DBSubscriber.get_by_id db id = none ∨
        RssProviderDatabase.get_by_id providers provider_id = none) →
      ∃ msg, SubscriberService.provider_follow db providers upd id provider_id =
        .error (.NotFoundException msg)) ∧
    (∀ s, DBSubscriber.get_by_id db id = some s →
      RssProviderDatabase.get_by_id providers provider_id ≠ none →
      (provider_id ∈ s.subscribed_providers →
        ∃ msg, SubscriberService.provider_follow db providers upd id
            provider_id = .error (.ExistingDataException msg)) ∧
      (provider_id ∉ s.subscribed_providers →
        SubscriberService.provider_follow db providers upd id provider_id =
          .ok (upd id { s with subscribed_providers :=
            s.subscribed_providers ++ [provider_id] }) ∧
        ∃ msg, SubscriberService.provider_follow
            (DBSubscriber.update_store db id { s with subscribed_providers :=
              s.subscribed_providers ++ [provider_id] })
            providers upd id provider_id =
          .error (.ExistingDataException msg))) := by
  constructor
  · rintro (h | h)
    · exact ⟨"Subscriber with id " ++ id ++ " not found",
        by simp [SubscriberService.provider_follow, h]⟩
    · rcases hs : DBSubscriber.get_by_id db id with _ | s
      · exact ⟨"Subscriber with id " ++ id ++ " not found",
          by simp [SubscriberService.provider_follow, hs]⟩
      · exact ⟨"Provider with id " ++ provider_id ++ " not found",
          by simp [SubscriberService.provider_follow, hs, h]⟩
  · intro s hs hp
    rcases hprov : RssProviderDatabase.get_by_id providers provider_id
      with _ | prov
    · exact absurd hprov hp
    constructor
    · intro hmem
      exact ⟨"Subscriber with id " ++ id ++
        " already follows provider with id " ++ provider_id,
        by simp [SubscriberService.provider_follow, hs, hprov, hmem]⟩
    · intro hnmem
      obtain ⟨hsmem, hsid⟩ := DBSubscriber.get_by_id_eq_some db id s hs
      constructor
      · simp [SubscriberService.provider_follow, hs, hprov, hnmem]
      · have hs2 := DBSubscriber.get_by_id_update_store db id s
          { s with subscribed_providers :=
            s.subscribed_providers ++ [provider_id] } hs hsid
        exact ⟨"Subscriber with id " ++ id ++
          " already follows provider with id " ++ provider_id,
          by simp [SubscriberService.provider_follow, hs2, hprov]⟩

/-- Witness for C3 at a concrete store, provider list and echoing
persistence. -/
theorem provider_follow_spec_witness :
    SubscriberService.provider_follow [⟨"a", "e", "p", false, []⟩]
        [⟨"p1"⟩] (fun _ u => u) "a" "p1" =
      .ok ⟨"a", "e", "p", false, [] ++ ["p1"]⟩ :=
  (((provider_follow_spec [⟨"a", "e", "p", false, []⟩] [⟨"p1"⟩]
      (fun _ u => u) "a" "p1").2
    ⟨"a", "e", "p", false, []⟩ rfl (by decide)).2 (by decide)).1

/-- Claim C4: `provider_unfollow` fails with NotFoundException when the
subscriber is absent, when the provider is absent, or when the provider
id is not currently followed; otherwise it removes the provider id from
`subscribed_providers` and persists the updated subscriber, returning
the raw persistence result. -/
theorem provider_unfollow_spec {α : Type} (db : List Subscriber)
    (providers : List RssProvider) (upd : String → Subscriber → α)
    (id provider_id : String) :
    ((DBSubscriber.get_by_id db id = none ∨
        RssProviderDatabase.get_by_id providers provider_id = none) →
      ∃ msg, SubscriberService.provider_unfollow db providers upd id
          provider_id = .error (.NotFoundException msg)) ∧
    (∀ s, DBSubscriber.get_by_id db id = some s →
      RssProviderDatabase.get_by_id providers provider_id ≠ none →
      (provider_id ∉ s.subscribed_providers →
        ∃ msg, SubscriberService.provider_unfollow db providers upd id
            provider_id = .error (.NotFoundException msg)) ∧
      (provider_id ∈ s.subscribed_providers →
        SubscriberService.provider_unfollow db providers upd id provider_id =
          .ok (upd id { s with subscribed_providers :=
            s.subscribed_providers.erase provider_id }))) := by
  constructor
  · rintro (h | h)
    · exact ⟨"Subscriber with id " ++ id ++ " not found",
        by simp [SubscriberService.provider_unfollow, h]⟩
    · rcases hs : DBSubscriber.get_by_id db id with _ | s
      · exact ⟨"Subscriber with id " ++ id ++ " not found",
          by simp [SubscriberService.provider_unfollow, hs]⟩
      · exact ⟨"Provider with id " ++ provider_id ++ " not found",
          by simp [SubscriberService.provider_unfollow, hs, h]⟩
  · intro s hs hp
    rcases hprov : RssProviderDatabase.get_by_id providers provider_id
      with _ | prov
    · exact absurd hprov hp
    constructor
    · intro hnmem
      exact ⟨"Subscriber with id " ++ id ++
        " does not follow provider with id " ++ provider_id,
        by simp [SubscriberService.provider_unfollow, hs, hprov, hnmem]⟩
    · intro hmem
      simp [SubscriberService.provider_unfollow, hs, hprov, hmem]

/-- Witness for C4 at a concrete store with the follow relation present. -/
theorem provider_unfollow_spec_witness :
    SubscriberService.provider_unfollow [⟨"a", "e", "p", false, ["p1"]⟩]
        [⟨"p1"⟩] (fun _ u => u) "a" "p1" =
      .ok ⟨"a", "e", "p", false, ["p1"].erase "p1"⟩ :=
  ((provider_unfollow_spec [⟨"a", "e", "p", false, ["p1"]⟩] [⟨"p1"⟩]
      (fun _ u => u) "a" "p1").2
    ⟨"a", "e", "p", false, ["p1"]⟩ rfl (by decide)).2 (by decide)

/-- Claim C5: for a stored subscriber not yet following the provider, a
successful `provider_follow` whose updated subscriber is persisted to
the store, followed by `provider_unfollow` for the same pair, persists
back exactly the original subscriber: `subscribed_providers` is restored
to its state before the follow, with no duplicate and no leftover
entry. -/
theorem follow_unfollow_roundtrip {α β : Type} (db : List Subscriber)
    (providers : List RssProvider) (upd1 : String → Subscriber → α)
    (upd2 : String → Subscriber → β) (id provider_id : String)
    (s : Subscriber) (hs : DBSubscriber.get_by_id db id = some s)
    (hprov : RssProviderDatabase.get_by_id providers provider_id ≠ none)
    (hnmem : provider_id ∉ s.subscribed_providers) :
    SubscriberService.provider_follow db providers upd1 id provider_id =
      .ok (upd1 id { s with subscribed_providers :=
        s.subscribed_providers ++ [provider_id] }) ∧
    SubscriberService.provider_unfollow
        (DBSubscriber.update_store db id { s with subscribed_providers :=
          s.subscribed_providers ++ [provider_id] })
        providers upd2 id provider_id =
      .ok (upd2 id s) := by
  rcases hprovs : RssProviderDatabase.get_by_id providers provider_id
    with _ | prov
  · exact absurd hprovs hprov
  obtain ⟨hsmem, hsid⟩ := DBSubscriber.get_by_id_eq_some db id s hs
  have hs2 := DBSubscriber.get_by_id_update_store db id s
    { s with subscribed_providers :=
      s.subscribed_providers ++ [provider_id] } hs hsid
  have herase : (s.subscribed_providers ++ [provider_id]).erase provider_id =
      s.subscribed_providers :=
    List.erase_append_singleton_of_not_mem _ _ hnmem
  constructor
  · simp [SubscriberService.provider_follow, hs, hprovs, hnmem]
  · simp [SubscriberService.provider_unfollow, hs2, hprovs, herase]

/-- Witness for C5 at a concrete store, provider and echoing
persistence functions. -/
theorem follow_unfollow_roundtrip_witness :
    SubscriberService.provider_follow [⟨"a", "e", "p", false, []⟩]
        [⟨"p1"⟩] (fun _ u => u) "a" "p1" =
      .ok ⟨"a", "e", "p", false, [] ++ ["p1"]⟩ ∧
    SubscriberService.provider_unfollow
        (DBSubscriber.update_store [⟨"a", "e", "p", false, []⟩] "a"
          ⟨"a", "e", "p", false, [] ++ ["p1"]⟩)
        [⟨"p1"⟩] (fun _ u => u) "a" "p1" =
      .ok ⟨"a", "e", "p", false, []⟩ :=
  follow_unfollow_roundtrip [⟨"a", "e", "p", false, []⟩] [⟨"p1"⟩]
    (fun _ u => u) (fun _ u => u) "a" "p1" ⟨"a", "e", "p", false, []⟩
    rfl (by decide) (by decide)

/-- Claim C6: follow and unfollow preserve duplicate-freedom of
`subscribed_providers`: when the stored subscriber's list has no
duplicate id, any subscriber persisted by `provider_follow` (which only
appends an id it has checked to be absent) or by `provider_unfollow`
(which only removes an id) again has no duplicate id.  The persistence
function is instantiated to return its persisted argument so that the
conclusion speaks of the persisted subscriber. -/
theorem subscribed_providers_nodup (db : List Subscriber)
    (providers : List RssProvider) (id provider_id : String)
    (s : Subscriber) (hs : DBSubscriber.get_by_id db id = some s)
    (hnodup : s.subscribed_providers.Nodup) :
    (∀ v : Subscriber,
      SubscriberService.provider_follow db providers
        (fun _ u => u) id provider_id = .ok v →
      v.subscribed_providers.Nodup) ∧
    (∀ v : Subscriber,
      SubscriberService.provider_unfollow db providers
        (fun _ u => u) id provider_id = .ok v →
      v.subscribed_providers.Nodup) := by
  constructor
  · intro v hv
    rcases hprovs : RssProviderDatabase.get_by_id providers provider_id
      with _ | prov
    · simp [SubscriberService.provider_follow, hs, hprovs] at hv
    by_cases hmem : provider_id ∈ s.subscribed_providers
    · simp [SubscriberService.provider_follow, hs, hprovs, hmem] at hv
    · have hv' : { s with subscribed_providers :=
          s.subscribed_providers ++ [provider_id] } = v := by
        simpa [SubscriberService.provider_follow, hs, hprovs, hmem] using hv
      rw [← hv']
      simp [List.nodup_append, hnodup, hmem]
  · intro v hv
    rcases hprovs : RssProviderDatabase.get_by_id providers provider_id
      with _ | prov
    · simp [SubscriberService.provider_unfollow, hs, hprovs] at hv
    by_cases hmem : provider_id ∈ s.subscribed_providers
    · have hv' : { s with subscribed_providers :=
          s.subscribed_providers.erase provider_id } = v := by
        simpa [SubscriberService.provider_unfollow, hs, hprovs, hmem] using hv
      rw [← hv']
      exact hnodup.erase provider_id
    · simp [SubscriberService.provider_unfollow, hs, hprovs, hmem] at hv

/-- Witness for C6 at a concrete store and provider. -/
theorem subscribed_providers_nodup_witness :
    ([] ++ ["p1"] : List String).Nodup :=
  (subscribed_providers_nodup [⟨"a", "e", "p", false, []⟩] [⟨"p1"⟩]
      "a" "p1" ⟨"a", "e", "p", false, []⟩ rfl (by decide)).1
    ⟨"a", "e", "p", false, [] ++ ["p1"]⟩ rfl

/-- Claim C10: unlike `create`, `update` and `delete` — each shown here
raising DatabaseException on a failing persistence result —
`provider_follow` and `provider_unfollow` never produce a
DatabaseException for any inputs: past their validation checks they
return the raw database-update result, whatever value it is, so a
failing persistence result is returned as that value rather than
raised. -/
theorem follow_unfollow_no_database_error :
    (∀ (α : Type) (db : List Subscriber) (providers : List RssProvider)
        (upd : String → Subscriber → α) (id provider_id msg : String),
      SubscriberService.provider_follow db providers upd id provider_id ≠
          .error (.DatabaseException msg) ∧
      SubscriberService.provider_unfollow db providers upd id provider_id ≠
          .error (.DatabaseException msg)) ∧
    (∀ (db : List Subscriber) (providers : List RssProvider)
        (upd : String → Subscriber → Option Subscriber)
        (id provider_id : String) (s : Subscriber),
      DBSubscriber.get_by_id db id = some s →
      RssProviderDatabase.get_by_id providers provider_id ≠ none →
      (provider_id ∉ s.subscribed_providers →
        SubscriberService.provider_follow db providers upd id provider_id =
          .ok (upd id { s with subscribed_providers :=
            s.subscribed_providers ++ [provider_id] })) ∧
      (provider_id ∈ s.subscribed_providers →
        SubscriberService.provider_unfollow db providers upd id provider_id =
          .ok (upd id { s with subscribed_providers :=
            s.subscribed_providers.erase provider_id }))) ∧
    SubscriberService.create [] (fun _ => none) ⟨"i", "e", "p", false, []⟩ =
      .error (.DatabaseException "Failed to create subscriber") ∧
    SubscriberService.update [⟨"i", "e", "p", false, []⟩] (fun _ _ => none)
        "i" ⟨"i", "e", "p", false, []⟩ =
      .error (.DatabaseException "Failed to update subscriber") ∧
    SubscriberService.delete [⟨"i", "e", "p", false, []⟩] false "i" =
      .error (.DatabaseException "Failed to delete subscriber") := by
  refine ⟨?_, ?_, rfl, rfl, rfl⟩
  · intro α db providers upd id provider_id msg
    constructor
    · intro hcon
      rcases hs : DBSubscriber.get_by_id db id with _ | s
      · simp [SubscriberService.provider_follow, hs] at hcon
      rcases hprovs : RssProviderDatabase.get_by_id providers provider_id
        with _ | prov
      · simp [SubscriberService.provider_follow, hs, hprovs] at hcon
      by_cases hmem : provider_id ∈ s.subscribed_providers <;>
        simp [SubscriberService.provider_follow, hs, hprovs, hmem] at hcon
    · intro hcon
      rcases hs : DBSubscriber.get_by_id db id with _ | s
      · simp [SubscriberService.provider_unfollow, hs] at hcon
      rcases hprovs : RssProviderDatabase.get_by_id providers provider_id
        with _ | prov
      · simp [SubscriberService.provider_unfollow, hs, hprovs] at hcon
      by_cases hmem : provider_id ∈ s.subscribed_providers <;>
        simp [SubscriberService.provider_unfollow, hs, hprovs, hmem] at hcon
  · intro db providers upd id provider_id s hs hp
    rcases hprovs : RssProviderDatabase.get_by_id providers provider_id
      with _ | prov
    · exact absurd hprovs hp
    constructor
    · intro hnmem
      simp [SubscriberService.provider_follow, hs, hprovs, hnmem]
    · intro hmem
      simp [SubscriberService.provider_unfollow, hs, hprovs, hmem]

/-- Witness for C10: a failing persistence result surfaces as the
returned value of a follow, not as an exception. -/
theorem follow_unfollow_no_database_error_witness :
    SubscriberService.provider_follow [⟨"a", "e", "p", false, []⟩]
        [⟨"p1"⟩] (fun _ _ => (none : Option Subscriber)) "a" "p1" =
      .ok none :=
  ((follow_unfollow_no_database_error.2.1 [⟨"a", "e", "p", false, []⟩]
      [⟨"p1"⟩] (fun _ _ => none) "a" "p1" ⟨"a", "e", "p", false, []⟩
      rfl (by decide)).1 (by decide))
